import Mathlib

/-!
Shallow embedding of `src/main.py` (Telegram join-notification bot,
Google-Sheets variant with a daily digest).

External collaborators (the aiogram dispatcher/filter, the gspread
worksheet, `bot.send_message`, the scheduler) are modelled as explicit
oracle parameters; the bodies of the bot's own functions are translated
statement by statement.  An uncaught Python exception is modelled as
`Except.error msg`; a caught-and-logged exception leaves the function in
the `Except.ok` branch.
-/

/-- Telegram chat-member statuses (aiogram `ChatMemberStatus`):
`creator` is the owner, `left` covers not-a-member. -/
inductive ChatMemberStatus where
  | creator
  | administrator
  | member
  | restricted
  | kicked
  | left
deriving DecidableEq, Fintype

/-- A chat member as the aiogram status markers see it: the status plus the
`is_member` flag (meaningful for `restricted`; markers used by this program
never constrain it for other statuses). -/
structure ChatMemberInfo where
  status : ChatMemberStatus
  is_member : Bool
deriving DecidableEq, Fintype

/-- aiogram `_MemberStatusMarker.check`: the member matches the marker's
status name, and, when the marker carries an `is_member` constraint,
the member's `is_member` flag equals it. -/
def markerCheck (name : ChatMemberStatus) (isMemberReq : Option Bool)
    (m : ChatMemberInfo) : Bool :=
  m.status == name &&
    (match isMemberReq with
     | none => true
     | some b => m.is_member == b)

/-- aiogram `IS_NOT_MEMBER = LEFT | KICKED | -RESTRICTED`
(restricted with `is_member = False`). -/
def IS_NOT_MEMBER (m : ChatMemberInfo) : Bool :=
  markerCheck ChatMemberStatus.left none m ||
  markerCheck ChatMemberStatus.kicked none m ||
  markerCheck ChatMemberStatus.restricted (some false) m

/-- aiogram bare `MEMBER` marker: status `member`, no `is_member` constraint. -/
def MEMBER (m : ChatMemberInfo) : Bool :=
  markerCheck ChatMemberStatus.member none m

/-- `ChatMemberUpdatedFilter(member_status_changed=IS_NOT_MEMBER >> MEMBER)`
(src/main.py line 86): the old chat member matches the left-hand group and
the new chat member matches the right-hand group. -/
def member_status_changed (oldm newm : ChatMemberInfo) : Bool :=
  IS_NOT_MEMBER oldm && MEMBER newm

/-- The join classifier as the SPEC states it (section 4.1 / 8): true exactly
when `old_status` is in the set containing left and kicked and `new_status` is
in the set containing member and restricted. Spec-side definition, to be
compared with `member_status_changed` from the source. -/
def is_join_claim (olds news : ChatMemberStatus) : Bool :=
  (olds == ChatMemberStatus.left || olds == ChatMemberStatus.kicked) &&
  (news == ChatMemberStatus.member || news == ChatMemberStatus.restricted)

/-- Python truthiness of an optional environment string: `None` and the empty
string are falsy (`if not TOKEN`, `if ADMIN_ID`, ...). -/
def pyTruthy : Option String → Bool
  | none => false
  | some s => !(s == "")

/-- Gregorian leap year. -/
def isLeap (y : Nat) : Bool :=
  (y % 4 == 0 && y % 100 != 0) || y % 400 == 0

/-- Number of days in a month of a given year. -/
def daysInMonth (y m : Nat) : Nat :=
  if m == 2 then (if isLeap y then 29 else 28)
  else if m == 4 || m == 6 || m == 9 || m == 11 then 30
  else 31

/-- A civil calendar date, as carried by a Python `datetime`. -/
structure CivilDate where
  year : Nat
  month : Nat
  day : Nat
deriving DecidableEq

/-- A wall-clock time of day. -/
structure ClockTime where
  hour : Nat
  minute : Nat
  second : Nat
deriving DecidableEq

/-- A timezone-aware local datetime (`datetime.now(_tz())`): the local civil
date and time of day in the configured timezone. -/
structure LocalDateTime where
  date : CivilDate
  time : ClockTime
deriving DecidableEq

/-- `datetime - timedelta(days=1)` on an aware datetime keeps the time of day
and moves the civil date to the previous calendar day. -/
def datePred (d : CivilDate) : CivilDate :=
  if d.day > 1 then { d with day := d.day - 1 }
  else if d.month > 1 then
    { d with month := d.month - 1, day := daysInMonth d.year (d.month - 1) }
  else { year := d.year - 1, month := 12, day := 31 }

/-- Zero-pad a number to two digits (strftime `%d`, `%m`, `%H`, `%M`, `%S`). -/
def pad2 (n : Nat) : String :=
  if n < 10 then "0" ++ toString n else toString n

/-- strftime `"%d.%m.%Y"`. -/
def formatDate (d : CivilDate) : String :=
  pad2 d.day ++ "." ++ pad2 d.month ++ "." ++ toString d.year

/-- strftime `"%H:%M:%S"`. -/
def formatTime (t : ClockTime) : String :=
  pad2 t.hour ++ ":" ++ pad2 t.minute ++ ":" ++ pad2 t.second

/-- A Telegram user as the handler reads it: `user.id`, `user.username`
(optional), `user.full_name` (a string, possibly empty). -/
structure TUser where
  id : Int
  username : Option String
  full_name : String
deriving DecidableEq

/-- Oracle for the sheet as `on_user_join` touches it: `get_sheet()` returned
`None`; or `worksheet.append_row` raised with the given message; or the
append succeeded. -/
inductive SheetAppend where
  | unavailable
  | raisesOnAppend (msg : String)
  | ok
deriving DecidableEq

/-- Observable outcome of one `on_user_join` invocation: the row appended to
the worksheet (if any), the `sheet_status` annotation, and the message
delivered to the admin (if any). -/
structure JoinOutcome where
  appendedRow : Option (List String)
  sheet_status : String
  adminMessage : Option String
deriving DecidableEq

/-- The f-string of src/main.py lines 112-118 (the admin notification for a
new join). -/
def joinMessageText (full_name username user_id date_str time_str
    sheet_status : String) : String :=
  "🔔 <b>Новый подписчик!</b>\n👤 " ++ full_name ++ " (" ++ username ++
  ")\n🆔 <code>" ++ user_id ++ "</code>\n📅 " ++ date_str ++ " " ++ time_str ++
  "\n<i>" ++ sheet_status ++ "</i>"

/-- `on_user_join` (src/main.py lines 87-122).  `sendFail` is the
`bot.send_message` oracle: `some msg` means that call would raise with
message `msg` (the handler catches it at lines 121-122, so no message is
delivered and nothing propagates). -/
def on_user_join (ADMIN_ID : Option String) (sheet : SheetAppend)
    (sendFail : Option String) (now : LocalDateTime) (user : TUser) :
    Except String JoinOutcome :=
  let date_str := formatDate now.date
  let time_str := formatTime now.time
  let full_name := if user.full_name == "" then "Без имени" else user.full_name
  let username :=
    match user.username with
    | some s => if s == "" then "" else "@" ++ s
    | none => ""
  let user_id := toString user.id
  let rowAndStatus : Option (List String) × String :=
    match sheet with
    | SheetAppend.unavailable => (none, "❌ Таблица не найдена или нет доступа")
    | SheetAppend.raisesOnAppend e => (none, "❌ Ошибка записи: " ++ e)
    | SheetAppend.ok =>
        (some [date_str, time_str, user_id, full_name, username],
         "✅ Сохранено в Google Таблицу")
  let adminMessage : Option String :=
    if pyTruthy ADMIN_ID then
      match sendFail with
      | some _ => none
      | none =>
          some (joinMessageText full_name username user_id date_str time_str
            rowAndStatus.2)
    else none
  Except.ok
    { appendedRow := rowAndStatus.1
      sheet_status := rowAndStatus.2
      adminMessage := adminMessage }

/-- One delivered `ChatMemberUpdated` notification: the chat it happened in,
the old and new chat-member states, and `new_chat_member.user`. -/
structure ChatMemberUpdated where
  chat_id : Int
  old_chat_member : ChatMemberInfo
  new_chat_member : ChatMemberInfo
  user : TUser
deriving DecidableEq

/-- Router dispatch: `on_user_join` runs iff the transition filter matches;
nothing else about the event (in particular not `chat_id`) is consulted. -/
def processEvent (ADMIN_ID : Option String) (sheet : SheetAppend)
    (sendFail : Option String) (now : LocalDateTime) (e : ChatMemberUpdated) :
    Option (Except String JoinOutcome) :=
  if member_status_changed e.old_chat_member e.new_chat_member then
    some (on_user_join ADMIN_ID sheet sendFail now e.user)
  else none

/-- Whether processing `e` appends a row to the worksheet. -/
def appendsRow (ADMIN_ID : Option String) (sheet : SheetAppend)
    (sendFail : Option String) (now : LocalDateTime) (e : ChatMemberUpdated) :
    Bool :=
  match processEvent ADMIN_ID sheet sendFail now e with
  | some (Except.ok out) => out.appendedRow.isSome
  | _ => false

/-- One row of `worksheet.get_all_records()` as the digest reads it:
`record.get('Дата')`, `none` when the column is absent. -/
structure SheetRecord where
  dateCol : Option String
deriving DecidableEq

/-- Oracle for the sheet as `send_daily_report` touches it. -/
inductive SheetRead where
  | unavailable
  | raisesOnRead (msg : String)
  | records (rows : List SheetRecord)
deriving DecidableEq

/-- Observable outcome of one `send_daily_report` invocation:
whether `get_sheet()` was called, whether `get_all_records()` was called,
and the messages delivered to the admin, in order. -/
structure DigestOutcome where
  sheetFetched : Bool
  readRows : Bool
  sent : List String
deriving DecidableEq

/-- The f-string of src/main.py lines 72-77 (the daily digest text). -/
def digestText (yesterday : String) (yesterday_count total_count : Nat) :
    String :=
  "📊 <b>Ежедневная сводка</b>\n\n📅 Дата: " ++ yesterday ++
  "\n➕ Новых подписчиков: <b>" ++ toString yesterday_count ++
  "</b>\n👥 Всего подписчиков: <b>" ++ toString total_count ++ "</b>"

/-- `send_daily_report` (src/main.py lines 48-84).  `sendFail n` is the
`bot.send_message` oracle for the n-th send attempted in this invocation.
The send at line 55 (sheet unavailable) and the send at line 84 (inside the
`except` handler) are not themselves guarded, so their failures escape as
`Except.error`; the send at line 79 is inside the `try`, so its failure is
caught at line 82 and the handler then attempts the line-84 error report. -/
def send_daily_report (ADMIN_ID : Option String) (sheet : SheetRead)
    (sendFail : Nat → Option String) (now : LocalDateTime) :
    Except String DigestOutcome :=
  if pyTruthy ADMIN_ID = false then
    Except.ok { sheetFetched := false, readRows := false, sent := [] }
  else
    match sheet with
    | SheetRead.unavailable =>
        match sendFail 0 with
        | some e => Except.error e
        | none =>
            Except.ok
              { sheetFetched := true, readRows := false,
                sent := ["❌ Не удалось получить данные из таблицы"] }
    | SheetRead.raisesOnRead e =>
        match sendFail 0 with
        | some e2 => Except.error e2
        | none =>
            Except.ok
              { sheetFetched := true, readRows := true,
                sent := ["❌ Ошибка при подсчете статистики: " ++ e] }
    | SheetRead.records rows =>
        let yesterday := formatDate (datePred now.date)
        let yesterday_count :=
          (rows.filter (fun r => r.dateCol == some yesterday)).length
        let total_count := rows.length
        let text := digestText yesterday yesterday_count total_count
        match sendFail 0 with
        | none =>
            Except.ok
              { sheetFetched := true, readRows := true, sent := [text] }
        | some e =>
            match sendFail 1 with
            | some e2 => Except.error e2
            | none =>
                Except.ok
                  { sheetFetched := true, readRows := true,
                    sent := ["❌ Ошибка при подсчете статистики: " ++ e] }

/-- The startup notice (src/main.py lines 156-165): guarded by
`try/except`, so a send failure is caught and logged. -/
def startupNotice (ADMIN_ID : Option String) (sheetOk : Bool)
    (sendFail : Option String) : Except String (Option String) :=
  if pyTruthy ADMIN_ID then
    match sendFail with
    | some _ => Except.ok none
    | none =>
        Except.ok (some (if sheetOk then
          "🤖 Бот перезапущен. 🟢 Связь с Google Таблицей: ОК\n⏰ Ежедневные сводки активированы"
        else
          "🤖 Бот перезапущен. 🔴 ОШИБКА доступа к Таблице (см. логи)"))
  else Except.ok none

/-- src/main.py line 22: `DAILY_REPORT_HOUR = 9`, a program constant. -/
def DAILY_REPORT_HOUR : Nat := 9

/-- src/main.py line 23: `DAILY_REPORT_MINUTE = 0`, a program constant. -/
def DAILY_REPORT_MINUTE : Nat := 0

/-- The module-level configuration (src/main.py lines 17-23): `TOKEN` and
`ADMIN_ID` are read from the environment; the digest hour and minute are the
constants above. -/
structure Config where
  TOKEN : Option String
  ADMIN_ID : Option String
  hour : Nat
  minute : Nat
deriving DecidableEq

/-- Evaluate the module-level configuration against an environment. -/
def loadConfig (env : String → Option String) : Config :=
  { TOKEN := env "BOT_TOKEN"
    ADMIN_ID := env "ADMIN_ID"
    hour := DAILY_REPORT_HOUR
    minute := DAILY_REPORT_MINUTE }

/-- The (hour, minute) the scheduler job is registered with
(src/main.py lines 146-152). -/
def scheduledTrigger (env : String → Option String) : Nat × Nat :=
  ((loadConfig env).hour, (loadConfig env).minute)

/-- Startup result of `main()` (src/main.py lines 136-170). -/
inductive StartupOutcome where
  | exitedBeforeServing (msg : String)
  | serving
deriving DecidableEq

/-- `main()`'s startup gate (src/main.py lines 137-138): only a falsy
`BOT_TOKEN` aborts; otherwise the process goes on to start the scheduler,
web server and polling. -/
def mainStartup (TOKEN ADMIN_ID : Option String) : StartupOutcome :=
  if pyTruthy TOKEN = false then
    StartupOutcome.exitedBeforeServing "Ошибка: Не задан BOT_TOKEN"
  else StartupOutcome.serving

/-- Spec rule for the recorded display name (data model, `full_name`):
the display name, or the placeholder when it is empty. -/
def specFullName (displayName : String) : String :=
  if displayName == "" then "Без имени" else displayName

/-- Spec rule for the rendered username: leading `@` when the account has a
(non-empty) username, the empty string otherwise. -/
def specUsername (username : Option String) : String :=
  match username with
  | some s => if s == "" then "" else "@" ++ s
  | none => ""

/-- Spec rule for the rendered user id: its decimal string. -/
def specUserId (id : Int) : String := toString id

/-- Sample timestamp: 2024-01-15 12:00:00 local time. -/
def sampleNow : LocalDateTime :=
  { date := { year := 2024, month := 1, day := 15 }
    time := { hour := 12, minute := 0, second := 0 } }

/-- Sample user with username and display name. -/
def sampleUser : TUser :=
  { id := 42, username := some "alice", full_name := "Alice A" }

/-- Sample user with no username and an empty display name. -/
def userNoName : TUser :=
  { id := 7, username := none, full_name := "" }

/-- A `(left → member)` event in chat 1. -/
def eventChat1 : ChatMemberUpdated :=
  { chat_id := 1
    old_chat_member := { status := ChatMemberStatus.left, is_member := false }
    new_chat_member := { status := ChatMemberStatus.member, is_member := true }
    user := sampleUser }

/-- The same transition delivered for chat 2. -/
def eventChat2 : ChatMemberUpdated := { eventChat1 with chat_id := 2 }

/-- Sample digest rows: two dated on 2024-01-14, one on 2024-01-10. -/
def digestRows : List SheetRecord :=
  [{ dateCol := some "14.01.2024" }, { dateCol := some "10.01.2024" },
   { dateCol := some "14.01.2024" }]

/-- An environment that sets digest-trigger variables (which the program
never reads). -/
def envSettingTrigger : String → Option String := fun k =>
  if k = "DAILY_REPORT_HOUR" then some "15"
  else if k = "DAILY_REPORT_MINUTE" then some "30"
  else none

/-!  Theorems  -/

/-- C1 counterexample: the claim says the classifier accepts every transition
with old status in the left/kicked set and new status in the member/restricted
set, in particular `left → restricted`; the source filter
`IS_NOT_MEMBER >> MEMBER` rejects `left → restricted` (for either value of
`is_member` on the new side), because the bare `MEMBER` marker matches only
status `member`. -/
theorem C1_left_to_restricted_rejected :
    is_join_claim ChatMemberStatus.left ChatMemberStatus.restricted = true ∧
    member_status_changed
      { status := ChatMemberStatus.left, is_member := false }
      { status := ChatMemberStatus.restricted, is_member := false } = false ∧
    member_status_changed
      { status := ChatMemberStatus.left, is_member := false }
      { status := ChatMemberStatus.restricted, is_member := true } = false := by
  decide

/-- C1 (amended): the filter `IS_NOT_MEMBER >> MEMBER` fires exactly when the
old status is left, kicked, or restricted with `is_member = false`, and the
new status is exactly member (a transition into restricted never fires it). -/
theorem C1_join_filter_characterization : ∀ o n : ChatMemberInfo,
    member_status_changed o n = true ↔
      ((o.status = ChatMemberStatus.left ∨ o.status = ChatMemberStatus.kicked ∨
          (o.status = ChatMemberStatus.restricted ∧ o.is_member = false)) ∧
        n.status = ChatMemberStatus.member) := by
  decide

/-- C2 counterexample: there is no monitored chat id — the same accepted
transition appends a row whether it is delivered for chat 1 or for chat 2,
so no single chat id `c` can be "the" chat whose events alone are processed. -/
theorem C2_no_monitored_chat_id :
    ¬ ∃ c : Int, ∀ e : ChatMemberUpdated,
        appendsRow (some "99") SheetAppend.ok none sampleNow e = true →
          e.chat_id = c := by
  rintro ⟨c, h⟩
  have h1 := h eventChat1 (by decide)
  have h2 := h eventChat2 (by decide)
  simp [eventChat1, eventChat2] at h1 h2
  omega

/-- C2 (amended): the pipeline applies no chat filter at all — whether a
notification is processed, and with what outcome, is independent of its
`chat_id`; only the membership-status transition is consulted. -/
theorem C2_chat_id_irrelevant : ∀ (e : ChatMemberUpdated) (c : Int)
    (ADMIN_ID : Option String) (sheet : SheetAppend)
    (sendFail : Option String) (now : LocalDateTime),
    processEvent ADMIN_ID sheet sendFail now { e with chat_id := c } =
      processEvent ADMIN_ID sheet sendFail now e := by
  intro e c a s f n
  rfl

/-- C3 counterexample: with a bot token present but `ADMIN_ID` missing from
the environment, `main()` does not exit — it proceeds to serve, so a missing
administrator recipient id is not fatal at startup. -/
theorem C3_admin_missing_still_serves :
    mainStartup (some "123:ABC") none = StartupOutcome.serving := by
  decide

/-- C3 (amended): only the bot token is required at startup — a falsy
`BOT_TOKEN` exits before serving, and whenever the token is truthy the
process serves regardless of whether `ADMIN_ID` is set. -/
theorem C3_only_token_fatal :
    (∀ ADMIN_ID : Option String,
        mainStartup none ADMIN_ID =
          StartupOutcome.exitedBeforeServing "Ошибка: Не задан BOT_TOKEN") ∧
    (∀ TOKEN ADMIN_ID : Option String, pyTruthy TOKEN = true →
        mainStartup TOKEN ADMIN_ID = StartupOutcome.serving) := by
  constructor
  · intro a
    rfl
  · intro t a h
    simp [mainStartup, h]

/-- C3 witness: the amended startup behaviour at concrete inputs. -/
theorem C3_only_token_fatal_witness :
    mainStartup none (some "5") =
      StartupOutcome.exitedBeforeServing "Ошибка: Не задан BOT_TOKEN" ∧
    pyTruthy (some "123:ABC") = true ∧
    mainStartup (some "123:ABC") (some "5") = StartupOutcome.serving :=
  ⟨C3_only_token_fatal.1 (some "5"), by decide,
   C3_only_token_fatal.2 (some "123:ABC") (some "5") (by decide)⟩

/-- C7 counterexample: an environment that sets `DAILY_REPORT_HOUR=15` and
`DAILY_REPORT_MINUTE=30` still yields the trigger (9, 0) — identical to the
empty environment — so the digest trigger time is not environment-provided. -/
theorem C7_trigger_ignores_environment :
    scheduledTrigger envSettingTrigger = (9, 0) ∧
    scheduledTrigger envSettingTrigger ≠ (15, 30) ∧
    scheduledTrigger (fun _ => none) = scheduledTrigger envSettingTrigger :=
  ⟨rfl, by decide, rfl⟩

/-- C7 (amended): the digest hour and minute are the program constants 9 and
0 for every environment; the token and admin id, by contrast, are read from
the environment. -/
theorem C7_trigger_is_constant : ∀ env : String → Option String,
    scheduledTrigger env = (DAILY_REPORT_HOUR, DAILY_REPORT_MINUTE) ∧
    scheduledTrigger env = (9, 0) ∧
    (loadConfig env).TOKEN = env "BOT_TOKEN" ∧
    (loadConfig env).ADMIN_ID = env "ADMIN_ID" :=
  fun env => ⟨rfl, rfl, rfl, rfl⟩

/-- C4: for an accepted join with the admin configured, both
durable-storage failure modes (sheet unavailable; `append_row` raising) are
absorbed: the handler returns normally (`Except.ok`, nothing propagates),
appends nothing, and still sends the admin notification, whose
`sheet_status` annotation describes the persistence failure. -/
theorem C4_storage_failure_annotated : ∀ (a : String), a ≠ "" →
    ∀ (e : String) (now : LocalDateTime) (u : TUser),
    on_user_join (some a) SheetAppend.unavailable none now u =
      Except.ok
        { appendedRow := none
          sheet_status := "❌ Таблица не найдена или нет доступа"
          adminMessage := some (joinMessageText (specFullName u.full_name)
            (specUsername u.username) (specUserId u.id) (formatDate now.date)
            (formatTime now.time) "❌ Таблица не найдена или нет доступа") } ∧
    on_user_join (some a) (SheetAppend.raisesOnAppend e) none now u =
      Except.ok
        { appendedRow := none
          sheet_status := "❌ Ошибка записи: " ++ e
          adminMessage := some (joinMessageText (specFullName u.full_name)
            (specUsername u.username) (specUserId u.id) (formatDate now.date)
            (formatTime now.time) ("❌ Ошибка записи: " ++ e)) } := by
  intro a ha e now u
  have hta : pyTruthy (some a) = true := by
    simp [pyTruthy]
    exact ha
  constructor <;>
    simp [on_user_join, hta, specFullName, specUsername, specUserId]

/-- C4 witness: both failure modes at a concrete admin, user and time. -/
theorem C4_storage_failure_annotated_witness :
    on_user_join (some "7") SheetAppend.unavailable none sampleNow sampleUser =
      Except.ok
        { appendedRow := none
          sheet_status := "❌ Таблица не найдена или нет доступа"
          adminMessage := some (joinMessageText (specFullName sampleUser.full_name)
            (specUsername sampleUser.username) (specUserId sampleUser.id)
            (formatDate sampleNow.date) (formatTime sampleNow.time)
            "❌ Таблица не найдена или нет доступа") } ∧
    on_user_join (some "7") (SheetAppend.raisesOnAppend "quota") none sampleNow
        sampleUser =
      Except.ok
        { appendedRow := none
          sheet_status := "❌ Ошибка записи: " ++ "quota"
          adminMessage := some (joinMessageText (specFullName sampleUser.full_name)
            (specUsername sampleUser.username) (specUserId sampleUser.id)
            (formatDate sampleNow.date) (formatTime sampleNow.time)
            ("❌ Ошибка записи: " ++ "quota")) } :=
  C4_storage_failure_annotated "7" (by decide) "quota" sampleNow sampleUser

/-- C5: when the digest callback fires with the admin configured and the
sheet readable, it counts the records whose date column equals the previous
calendar day's date, takes the total record count, and delivers exactly one
message carrying both numbers. -/
theorem C5_daily_digest_counts : ∀ (a : String), a ≠ "" →
    ∀ (rows : List SheetRecord) (now : LocalDateTime),
    send_daily_report (some a) (SheetRead.records rows) (fun _ => none) now =
      Except.ok
        { sheetFetched := true
          readRows := true
          sent := [digestText (formatDate (datePred now.date))
            ((rows.filter
              (fun r => r.dateCol == some (formatDate (datePred now.date)))).length)
            rows.length] } := by
  intro a ha rows now
  have hta : pyTruthy (some a) = true := by
    simp [pyTruthy]
    exact ha
  simp [send_daily_report, hta]

/-- C5 witness: three concrete records, two of them dated on the previous
calendar day (2024-01-14 for a trigger on 2024-01-15): the digest reports
2 for yesterday and 3 in total. -/
theorem C5_daily_digest_counts_witness :
    ("7" : String) ≠ "" ∧
    send_daily_report (some "7") (SheetRead.records digestRows) (fun _ => none)
        sampleNow =
      Except.ok
        { sheetFetched := true
          readRows := true
          sent := [digestText (formatDate (datePred sampleNow.date))
            ((digestRows.filter (fun r =>
              r.dateCol == some (formatDate (datePred sampleNow.date)))).length)
            digestRows.length] } ∧
    digestText (formatDate (datePred sampleNow.date))
      ((digestRows.filter (fun r =>
        r.dateCol == some (formatDate (datePred sampleNow.date)))).length)
      digestRows.length = digestText "14.01.2024" 2 3 :=
  ⟨by decide, C5_daily_digest_counts "7" (by decide) digestRows sampleNow,
   by decide⟩

/-- C6 counterexample: not every delivery failure is caught — when the sheet
is unavailable, the digest's fallback notice (src/main.py line 55) is sent
outside any `try`, so a `send_message` failure there propagates out of
`send_daily_report` to the scheduler. -/
theorem C6_digest_fallback_send_propagates :
    send_daily_report (some "7") SheetRead.unavailable
        (fun _ => some "Telegram API error") sampleNow =
      Except.error "Telegram API error" := by
  rfl

/-- C6 (amended): delivery failures in the join handler are caught, leave no
message delivered, and do not change the append outcome; the digest's primary
message failure is caught (the error report is delivered instead); the
startup notice failure is caught; but failures of the digest's unguarded
fallback sends (sheet-unavailable notice, error report) propagate. -/
theorem C6_send_failure_handling :
    (∀ (ADMIN_ID : Option String) (sheet : SheetAppend) (e : String)
        (now : LocalDateTime) (u : TUser),
        ∃ out out2,
          on_user_join ADMIN_ID sheet (some e) now u = Except.ok out ∧
          on_user_join ADMIN_ID sheet none now u = Except.ok out2 ∧
          out.adminMessage = none ∧
          out.appendedRow = out2.appendedRow) ∧
    (∀ (a : String), a ≠ "" →
        ∀ (rows : List SheetRecord) (e : String) (now : LocalDateTime),
        send_daily_report (some a) (SheetRead.records rows)
            (fun n => if n == 0 then some e else none) now =
          Except.ok
            { sheetFetched := true
              readRows := true
              sent := ["❌ Ошибка при подсчете статистики: " ++ e] }) ∧
    (∀ (ADMIN_ID : Option String) (sheetOk : Bool) (e : String),
        startupNotice ADMIN_ID sheetOk (some e) = Except.ok none) ∧
    (∀ (a : String), a ≠ "" → ∀ (e : String) (now : LocalDateTime),
        send_daily_report (some a) SheetRead.unavailable (fun _ => some e) now =
          Except.error e) := by
  refine ⟨?_, ?_, ?_, ?_⟩
  · intro A sheet e now u
    refine ⟨_, _, rfl, rfl, ?_, ?_⟩
    · simp [on_user_join]
    · rfl
  · intro a ha rows e now
    have hta : pyTruthy (some a) = true := by
      simp [pyTruthy]
      exact ha
    simp [send_daily_report, hta]
  · intro A ok e
    simp [startupNotice]
  · intro a ha e now
    have hta : pyTruthy (some a) = true := by
      simp [pyTruthy]
      exact ha
    simp [send_daily_report, hta]

/-- C6 witness: the amended behaviour at concrete inputs — the digest's
primary send failure is caught and replaced by the error report, while the
sheet-unavailable fallback send failure escapes as an error. -/
theorem C6_send_failure_handling_witness :
    send_daily_report (some "7") (SheetRead.records digestRows)
        (fun n => if n == 0 then some "boom" else none) sampleNow =
      Except.ok
        { sheetFetched := true
          readRows := true
          sent := ["❌ Ошибка при подсчете статистики: " ++ "boom"] } ∧
    send_daily_report (some "7") SheetRead.unavailable (fun _ => some "boom")
        sampleNow =
      Except.error "boom" :=
  ⟨C6_send_failure_handling.2.1 "7" (by decide) digestRows "boom" sampleNow,
   C6_send_failure_handling.2.2.2 "7" (by decide) "boom" sampleNow⟩

/-- C8: for every accepted join with the sheet available, the recorded row
exists and its `full_name` column (index 3) is the display name when
non-empty and the placeholder "Без имени" when empty. -/
theorem C8_full_name_recorded : ∀ (ADMIN_ID : Option String)
    (sendFail : Option String) (now : LocalDateTime) (u : TUser),
    ∃ out row,
      on_user_join ADMIN_ID SheetAppend.ok sendFail now u = Except.ok out ∧
      out.appendedRow = some row ∧
      row.get? 3 = some (specFullName u.full_name) := by
  intro A sf now u
  refine ⟨_, _, rfl, rfl, ?_⟩
  simp [specFullName]

/-- C9: with `ADMIN_ID` unset, the digest returns immediately — no sheet
fetch, no rows read, nothing sent, no error; the join handler still appends
its row when the sheet is available but sends no notification; and for every
sheet state the join handler returns without error and without notifying. -/
theorem C9_admin_unset_behaviour :
    (∀ (sheet : SheetRead) (sendFail : Nat → Option String)
        (now : LocalDateTime),
        send_daily_report none sheet sendFail now =
          Except.ok { sheetFetched := false, readRows := false, sent := [] }) ∧
    (∀ (sendFail : Option String) (now : LocalDateTime) (u : TUser),
        ∃ out row,
          on_user_join none SheetAppend.ok sendFail now u = Except.ok out ∧
          out.appendedRow = some row ∧
          out.adminMessage = none) ∧
    (∀ (sheet : SheetAppend) (sendFail : Option String) (now : LocalDateTime)
        (u : TUser),
        ∃ out, on_user_join none sheet sendFail now u = Except.ok out ∧
          out.adminMessage = none) := by
  refine ⟨?_, ?_, ?_⟩
  · intro sheet sf now
    rfl
  · intro sf now u
    exact ⟨_, _, rfl, rfl, rfl⟩
  · intro sheet sf now u
    exact ⟨_, rfl, rfl⟩

/-- C10: for every accepted join with the sheet available and the admin
configured, the appended row carries the decimal user id (index 2) and the
`@`-prefixed-or-empty username (index 4), and the admin notification is the
join message built from exactly those renderings. -/
theorem C10_id_and_username_rendering : ∀ (a : String), a ≠ "" →
    ∀ (now : LocalDateTime) (u : TUser),
    ∃ out row,
      on_user_join (some a) SheetAppend.ok none now u = Except.ok out ∧
      out.appendedRow = some row ∧
      row.get? 2 = some (specUserId u.id) ∧
      row.get? 4 = some (specUsername u.username) ∧
      out.adminMessage = some (joinMessageText (specFullName u.full_name)
        (specUsername u.username) (specUserId u.id) (formatDate now.date)
        (formatTime now.time) "✅ Сохранено в Google Таблицу") := by
  intro a ha now u
  have hta : pyTruthy (some a) = true := by
    simp [pyTruthy]
    exact ha
  refine ⟨_, _, rfl, rfl, ?_, ?_, ?_⟩
  · simp [specUserId]
  · simp [specUsername]
  · simp [hta, specFullName, specUsername, specUserId]

/-- C10 witness: the renderings at concrete users — id 42 renders as "42",
username "alice" renders as "@alice", a missing username renders as "". -/
theorem C10_id_and_username_rendering_witness :
    specUserId sampleUser.id = "42" ∧
    specUsername sampleUser.username = "@alice" ∧
    specUsername userNoName.username = "" ∧
    (∃ out row,
      on_user_join (some "7") SheetAppend.ok none sampleNow sampleUser =
        Except.ok out ∧
      out.appendedRow = some row ∧
      row.get? 2 = some (specUserId sampleUser.id) ∧
      row.get? 4 = some (specUsername sampleUser.username) ∧
      out.adminMessage = some (joinMessageText (specFullName sampleUser.full_name)
        (specUsername sampleUser.username) (specUserId sampleUser.id)
        (formatDate sampleNow.date) (formatTime sampleNow.time)
        "✅ Сохранено в Google Таблицу")) :=
  ⟨by decide, by decide, by decide,
   C10_id_and_username_rendering "7" (by decide) sampleNow sampleUser⟩
